import Mathlib

/-
Formal model of the ReferringRelationships data-preparation script
(src/data.py) and training driver (src/train.py).

Modelling conventions:
- Python strings are lists of characters (`PyStr`), so string operations
  such as `split('.')` are executable structural recursions.
- Python floats are modelled as rationals (ℚ).
- JSON dictionaries (`self.data`, `self.im_metadata`) are association
  lists keyed by `PyStr`; `d[k]` is `List.lookup` and a missing key is a
  `KeyError`.
- numpy arrays of shape (d, d) are functions `Fin d → Fin d → ℤ`.
- Effectful top-level code is modelled as a pure function returning a
  trace record (printed lines, exit code, files written, error raised).
- `np.random.shuffle` (src/data.py has no seed) is modelled by an
  arbitrary `shuffler` function; theorems assume it permutes its input.
-/

namespace RefRel

/-- Python strings, modelled as lists of characters. -/
abbrev PyStr := List Char

/-- Coerce a Lean string literal to a `PyStr`. -/
def str (s : String) : PyStr := s.toList

/-- Exceptions raised by the Python runtime that this model tracks. -/
inductive PyError where
  | keyError (key : PyStr)
  | typeError
  deriving DecidableEq

/-- `s.split('.')`, auxiliary recursion carrying the current chunk. -/
def splitDotAux : List Char → List Char → List (List Char)
  | [], acc => [acc.reverse]
  | c :: rest, acc =>
    if c = '.' then acc.reverse :: splitDotAux rest []
    else splitDotAux rest (c :: acc)

/-- Python `s.split('.')` on a `PyStr`. -/
def splitDot (s : PyStr) : List PyStr := splitDotAux s []

/-- Python `int()` on a rational: truncation toward zero. -/
def pyInt (q : ℚ) : ℤ := if 0 ≤ q then ⌊q⌋ else ⌈q⌉

/-- `os.path.join(dir, file)` for the paths built by these scripts. -/
def os_join (dir file : PyStr) : PyStr := dir ++ '/' :: file

/-- An object annotation: `{'category': c, 'bbox': [y_min, y_max, x_min, x_max]}`
(the bbox components are unpacked in this order by
`rescale_bbox_coordinates`). -/
structure ObjAnn where
  category : ℕ
  bbox : ℚ × ℚ × ℚ × ℚ
  deriving DecidableEq

/-- A relationship annotation: subject, predicate category, object. -/
structure RelAnn where
  subject : ObjAnn
  predicate : ℕ
  object : ObjAnn
  deriving DecidableEq

/-- Image metadata `{'height': h, 'width': w}`. -/
structure ImMetadata where
  height : ℚ
  width : ℚ
  deriving DecidableEq

/-- The state of a `VRDDataset` instance (src/data.py).  `data` and
`im_metadata` are the two loaded JSON dictionaries; the remaining fields
are set in `__init__` (defaults: `num_subjects=100`, `num_predicates=70`,
`num_objects=100`, `im_dim=224`, empty split lists). -/
structure VRDDataset where
  data : List (PyStr × List RelAnn)
  im_metadata : List (PyStr × ImMetadata)
  img_dir : PyStr
  num_subjects : ℕ
  num_predicates : ℕ
  num_objects : ℕ
  im_dim : ℕ
  train_image_idx : List PyStr
  val_image_idx : List PyStr

/-- `self.col_template = np.arange(self.im_dim).reshape(1, self.im_dim)`
(entries are integers; comparisons against floats promote, so entries are
modelled in ℚ). -/
def col_template (d : ℕ) : Fin 1 → Fin d → ℚ := fun _ c => ((c : ℕ) : ℚ)

/-- `self.row_template = np.arange(self.im_dim).reshape(self.im_dim, 1)`. -/
def row_template (d : ℕ) : Fin d → Fin 1 → ℚ := fun r _ => ((r : ℕ) : ℚ)

/-- numpy `.repeat(d, 0)` of a `(1, d)` array: tile the single row `d` times. -/
def np_repeat0 (d : ℕ) (a : Fin 1 → Fin d → ℤ) : Fin d → Fin d → ℤ :=
  fun _ c => a 0 c

/-- numpy `.repeat(d, 1)` of a `(d, 1)` array: tile the single column `d` times. -/
def np_repeat1 (d : ℕ) (a : Fin d → Fin 1 → ℤ) : Fin d → Fin d → ℤ :=
  fun r _ => a r 0

/-- An elementwise numpy comparison result multiplied into an int array:
`True ↦ 1`, `False ↦ 0`. -/
def cmpInd (p : Prop) [Decidable p] : ℤ := if p then 1 else 0

namespace VRDDataset

/-- `VRDDataset.rescale_bbox_coordinates` (src/data.py lines 27-37). -/
def rescale_bbox_coordinates (ds : VRDDataset) (obj : ObjAnn)
    (im_metadata : ImMetadata) : ℚ × ℚ × ℚ × ℚ :=
  let h_ratio : ℚ := (ds.im_dim : ℚ) * 1 / im_metadata.height
  let w_ratio : ℚ := (ds.im_dim : ℚ) * 1 / im_metadata.width
  match obj.bbox with
  | (y_min, y_max, x_min, x_max) =>
    (y_min * h_ratio, x_min * w_ratio,
      min (y_max * h_ratio) ((ds.im_dim : ℚ) - 1),
      min (x_max * w_ratio) ((ds.im_dim : ℚ) - 1))

/-- `VRDDataset.get_regions_from_bbox` (src/data.py lines 39-47):
`col_indexes = (1 * (self.col_template > left) * (self.col_template < right)).repeat(self.im_dim, 0)`,
`row_indexes = (1 * (self.row_template > top) * (self.row_template < bottom)).repeat(self.im_dim, 1)`,
returning `col_indexes * row_indexes`. -/
def get_regions_from_bbox (ds : VRDDataset) (bbox : ℚ × ℚ × ℚ × ℚ) :
    Fin ds.im_dim → Fin ds.im_dim → ℤ :=
  match bbox with
  | (top, left, bottom, right) =>
    let col_indexes := np_repeat0 ds.im_dim
      (fun i c => 1 * cmpInd (col_template ds.im_dim i c > left) *
        cmpInd (col_template ds.im_dim i c < right))
    let row_indexes := np_repeat1 ds.im_dim
      (fun r i => 1 * cmpInd (row_template ds.im_dim r i > top) *
        cmpInd (row_template ds.im_dim r i < bottom))
    fun r c => col_indexes r c * row_indexes r c

end VRDDataset

/-- The naive per-pixel definition of a region mask, taken from the spec:
a binary image-sized array whose entry at row `r`, column `c` is 1 exactly
when `top < r < bottom` and `left < c < right`. -/
def regionMaskNaive (d : ℕ) (bbox : ℚ × ℚ × ℚ × ℚ) : Fin d → Fin d → ℤ :=
  fun r c =>
    match bbox with
    | (top, left, bottom, right) =>
      if top < ((r : ℕ) : ℚ) ∧ ((r : ℕ) : ℚ) < bottom ∧
          left < ((c : ℕ) : ℚ) ∧ ((c : ℕ) : ℚ) < right then 1 else 0

/-- Pointwise: the vectorized mask computation agrees with the naive
per-pixel definition. -/
theorem get_regions_from_bbox_eq_naive (ds : VRDDataset)
    (top left bottom right : ℚ) (r c : Fin ds.im_dim) :
    ds.get_regions_from_bbox (top, left, bottom, right) r c =
      regionMaskNaive ds.im_dim (top, left, bottom, right) r c := by
  simp only [VRDDataset.get_regions_from_bbox, regionMaskNaive, np_repeat0,
    np_repeat1, col_template, row_template, cmpInd, gt_iff_lt, one_mul]
  by_cases h1 : top < ((r : ℕ) : ℚ) <;>
    by_cases h2 : ((r : ℕ) : ℚ) < bottom <;>
    by_cases h3 : left < ((c : ℕ) : ℚ) <;>
    by_cases h4 : ((c : ℕ) : ℚ) < right <;>
    simp [h1, h2, h3, h4]

/-- Claim C1: for every bounding box `(top, left, bottom, right)`,
`get_regions_from_bbox` returns an `im_dim × im_dim` array that is binary,
whose entry at row `r`, column `c` is 1 exactly when `top < r < bottom`
and `left < c < right` and 0 otherwise, and the vectorized
template-and-repeat computation equals the naive per-pixel region mask. -/
theorem get_regions_from_bbox_spec (ds : VRDDataset)
    (top left bottom right : ℚ) (r c : Fin ds.im_dim) :
    (ds.get_regions_from_bbox (top, left, bottom, right) r c = 0 ∨
      ds.get_regions_from_bbox (top, left, bottom, right) r c = 1) ∧
    (ds.get_regions_from_bbox (top, left, bottom, right) r c = 1 ↔
      (top < ((r : ℕ) : ℚ) ∧ ((r : ℕ) : ℚ) < bottom ∧
        left < ((c : ℕ) : ℚ) ∧ ((c : ℕ) : ℚ) < right)) ∧
    ds.get_regions_from_bbox (top, left, bottom, right) =
      regionMaskNaive ds.im_dim (top, left, bottom, right) := by
  have hfun : ds.get_regions_from_bbox (top, left, bottom, right) =
      regionMaskNaive ds.im_dim (top, left, bottom, right) := by
    funext r' c'
    exact get_regions_from_bbox_eq_naive ds top left bottom right r' c'
  refine ⟨?_, ?_, hfun⟩
  · rw [hfun]
    simp only [regionMaskNaive]
    split <;> simp
  · rw [hfun]
    simp only [regionMaskNaive]
    split <;> simp_all

/-- Claim C2: `rescale_bbox_coordinates` maps a bbox `[y_min, y_max, x_min,
x_max]` and metadata with positive height and width to
`(y_min * im_dim / height, x_min * im_dim / width,
min (y_max * im_dim / height) (im_dim - 1),
min (x_max * im_dim / width) (im_dim - 1))`, i.e. the rescaled
`(top, left, bottom, right)` coordinates. -/
theorem rescale_bbox_coordinates_spec (ds : VRDDataset) (obj : ObjAnn)
    (md : ImMetadata) (y_min y_max x_min x_max : ℚ)
    (hb : obj.bbox = (y_min, y_max, x_min, x_max))
    (hh : 0 < md.height) (hw : 0 < md.width) :
    ds.rescale_bbox_coordinates obj md =
      (y_min * (ds.im_dim : ℚ) / md.height,
        x_min * (ds.im_dim : ℚ) / md.width,
        min (y_max * (ds.im_dim : ℚ) / md.height) ((ds.im_dim : ℚ) - 1),
        min (x_max * (ds.im_dim : ℚ) / md.width) ((ds.im_dim : ℚ) - 1)) := by
  simp only [VRDDataset.rescale_bbox_coordinates, hb]
  have e1 : y_min * ((ds.im_dim : ℚ) * 1 / md.height) =
      y_min * (ds.im_dim : ℚ) / md.height := by ring
  have e2 : x_min * ((ds.im_dim : ℚ) * 1 / md.width) =
      x_min * (ds.im_dim : ℚ) / md.width := by ring
  have e3 : y_max * ((ds.im_dim : ℚ) * 1 / md.height) =
      y_max * (ds.im_dim : ℚ) / md.height := by ring
  have e4 : x_max * ((ds.im_dim : ℚ) * 1 / md.width) =
      x_max * (ds.im_dim : ℚ) / md.width := by ring
  rw [e1, e2, e3, e4]

/-- An empty `VRDDataset` at the default `im_dim = 224`, used to
instantiate theorems about the pure bbox methods. -/
def emptyDS : VRDDataset :=
  { data := [], im_metadata := [], img_dir := str "images",
    num_subjects := 100, num_predicates := 70, num_objects := 100,
    im_dim := 224, train_image_idx := [], val_image_idx := [] }

/-- Witness for C2 at a concrete object and image size. -/
theorem rescale_bbox_coordinates_spec_witness :
    emptyDS.rescale_bbox_coordinates ⟨5, (10, 20, 30, 40)⟩ ⟨2, 4⟩ =
      ((10 : ℚ) * (emptyDS.im_dim : ℚ) / 2,
        (30 : ℚ) * (emptyDS.im_dim : ℚ) / 4,
        min ((20 : ℚ) * (emptyDS.im_dim : ℚ) / 2) ((emptyDS.im_dim : ℚ) - 1),
        min ((40 : ℚ) * (emptyDS.im_dim : ℚ) / 4) ((emptyDS.im_dim : ℚ) - 1)) :=
  rescale_bbox_coordinates_spec emptyDS ⟨5, (10, 20, 30, 40)⟩ ⟨2, 4⟩
    10 20 30 40 rfl (by norm_num) (by norm_num)

/-- Claim C8: because the mask uses strict inequalities on both axes, a
bounding box with no integer strictly between `left` and `right` (or none
strictly between `top` and `bottom`) yields the all-zero mask even when
the box is non-empty, and pixels exactly on the box boundary are always
excluded. -/
theorem get_regions_from_bbox_strict (ds : VRDDataset)
    (top left bottom right : ℚ) :
    (((∀ c : Fin ds.im_dim, ¬(left < ((c : ℕ) : ℚ) ∧ ((c : ℕ) : ℚ) < right)) ∨
      (∀ r : Fin ds.im_dim, ¬(top < ((r : ℕ) : ℚ) ∧ ((r : ℕ) : ℚ) < bottom))) →
      ∀ r c : Fin ds.im_dim,
        ds.get_regions_from_bbox (top, left, bottom, right) r c = 0) ∧
    (∀ r c : Fin ds.im_dim,
      (((r : ℕ) : ℚ) = top ∨ ((r : ℕ) : ℚ) = bottom ∨
        ((c : ℕ) : ℚ) = left ∨ ((c : ℕ) : ℚ) = right) →
      ds.get_regions_from_bbox (top, left, bottom, right) r c = 0) := by
  constructor
  · intro h r c
    rw [get_regions_from_bbox_eq_naive]
    simp only [regionMaskNaive]
    split
    · rename_i hin
      obtain ⟨h1, h2, h3, h4⟩ := hin
      rcases h with h | h
      · exact absurd ⟨h3, h4⟩ (h c)
      · exact absurd ⟨h1, h2⟩ (h r)
    · rfl
  · intro r c hb
    rw [get_regions_from_bbox_eq_naive]
    simp only [regionMaskNaive]
    split
    · rename_i hin
      obtain ⟨h1, h2, h3, h4⟩ := hin
      rcases hb with hb | hb | hb | hb
      · exact absurd (hb ▸ h1) (lt_irrefl top)
      · exact absurd (hb ▸ h2) (lt_irrefl bottom)
      · exact absurd (hb ▸ h3) (lt_irrefl left)
      · exact absurd (hb ▸ h4) (lt_irrefl right)
    · rfl

/-- A tiny dataset state with `im_dim = 4`, for concrete mask evaluation. -/
def tinyDS : VRDDataset :=
  { data := [], im_metadata := [], img_dir := str "images",
    num_subjects := 100, num_predicates := 70, num_objects := 100,
    im_dim := 4, train_image_idx := [], val_image_idx := [] }

/-- Witness for C8: the non-empty box `(top, left, bottom, right) =
(0, 1, 2, 3/2)` (positive height and width) has no integer column
strictly inside `(1, 3/2)`, so its mask is identically zero. -/
theorem get_regions_from_bbox_strict_witness :
    (0 : ℚ) < 2 ∧ (1 : ℚ) < 3 / 2 ∧
    ∀ r c : Fin tinyDS.im_dim,
      tinyDS.get_regions_from_bbox (0, 1, 2, 3 / 2) r c = 0 := by
  refine ⟨by norm_num, by norm_num, ?_⟩
  refine (get_regions_from_bbox_strict tinyDS 0 1 2 (3 / 2)).1 (Or.inl ?_)
  intro c
  have hc : (c : ℕ) < 4 := c.isLt
  rintro ⟨hl, hr⟩
  have h1 : (1 : ℚ) < ((c : ℕ) : ℚ) := hl
  have h2 : ((c : ℕ) : ℚ) < 3 / 2 := hr
  have hgt : 1 < (c : ℕ) := by exact_mod_cast h1
  have hlt : ((c : ℕ) : ℚ) < 2 := lt_trans h2 (by norm_num)
  have : (c : ℕ) < 2 := by exact_mod_cast hlt
  omega

/-- `VRDDataset.get_train_val_splits` (src/data.py lines 49-61).
`np.random.shuffle` is modelled by the `shuffler` argument, applied only
when `shuffle` is true.  The result is the updated object state together
with the returned pair `(train_image_idx, val_image_idx)`. -/
def VRDDataset.get_train_val_splits (ds : VRDDataset) (val_split : ℚ)
    (shuffle : Bool) (shuffler : List PyStr → List PyStr) :
    VRDDataset × List PyStr × List PyStr :=
  let image_idx := ds.data.map Prod.fst
  let image_idx := if shuffle then shuffler image_idx else image_idx
  let thresh := (pyInt ((image_idx.length : ℚ) * (1 - val_split))).toNat
  let train := image_idx.take thresh
  let val := image_idx.drop thresh
  ({ ds with train_image_idx := train, val_image_idx := val }, train, val)

/-- Claim C3: for `val_split ∈ [0, 1]` and either value of the shuffle
flag, `get_train_val_splits` returns `(train, val)` whose concatenation is
a permutation of the dataset's image ids, with
`len(train) = int(n * (1 - val_split))` and `len(val) = n - len(train)`
where `n` is the number of image ids, and stores the same two lists in
`self.train_image_idx` and `self.val_image_idx`. -/
theorem get_train_val_splits_spec (ds : VRDDataset) (val_split : ℚ)
    (shuffle : Bool) (shuffler : List PyStr → List PyStr)
    (hperm : ∀ l, (shuffler l).Perm l)
    (h0 : 0 ≤ val_split) (h1 : val_split ≤ 1) :
    ((ds.get_train_val_splits val_split shuffle shuffler).2.1 ++
        (ds.get_train_val_splits val_split shuffle shuffler).2.2).Perm
      (ds.data.map Prod.fst) ∧
    (ds.get_train_val_splits val_split shuffle shuffler).2.1.length =
      (pyInt (((ds.data.map Prod.fst).length : ℚ) * (1 - val_split))).toNat ∧
    (ds.get_train_val_splits val_split shuffle shuffler).2.2.length =
      (ds.data.map Prod.fst).length -
        (pyInt (((ds.data.map Prod.fst).length : ℚ) * (1 - val_split))).toNat ∧
    (ds.get_train_val_splits val_split shuffle shuffler).1.train_image_idx =
      (ds.get_train_val_splits val_split shuffle shuffler).2.1 ∧
    (ds.get_train_val_splits val_split shuffle shuffler).1.val_image_idx =
      (ds.get_train_val_splits val_split shuffle shuffler).2.2 := by
  set keys := ds.data.map Prod.fst with hkeys
  set l := if shuffle then shuffler keys else keys with hl
  have hlp : l.Perm keys := by
    rw [hl]
    cases shuffle
    · simp
    · simpa using hperm keys
  have hlen : l.length = keys.length := hlp.length_eq
  have hq0 : (0 : ℚ) ≤ (keys.length : ℚ) * (1 - val_split) :=
    mul_nonneg (by positivity) (by linarith)
  have hqle : (keys.length : ℚ) * (1 - val_split) ≤ (keys.length : ℚ) :=
    mul_le_of_le_one_right (by positivity) (by linarith)
  have hpy : pyInt ((keys.length : ℚ) * (1 - val_split)) =
      ⌊(keys.length : ℚ) * (1 - val_split)⌋ := by
    simp [pyInt, hq0]
  have hfl : ⌊(keys.length : ℚ) * (1 - val_split)⌋ ≤ (keys.length : ℤ) := by
    calc ⌊(keys.length : ℚ) * (1 - val_split)⌋ ≤ ⌊(keys.length : ℚ)⌋ :=
          Int.floor_le_floor hqle
      _ = (keys.length : ℤ) := Int.floor_natCast _
  have hth : (pyInt ((keys.length : ℚ) * (1 - val_split))).toNat ≤
      keys.length := by
    rw [hpy]
    exact Int.toNat_le.mpr hfl
  have hout : ds.get_train_val_splits val_split shuffle shuffler =
      ({ ds with
          train_image_idx :=
            l.take (pyInt ((l.length : ℚ) * (1 - val_split))).toNat,
          val_image_idx :=
            l.drop (pyInt ((l.length : ℚ) * (1 - val_split))).toNat },
        l.take (pyInt ((l.length : ℚ) * (1 - val_split))).toNat,
        l.drop (pyInt ((l.length : ℚ) * (1 - val_split))).toNat) := by
    rw [VRDDataset.get_train_val_splits]
  rw [hout]
  simp only [hlen]
  refine ⟨?_, ?_, ?_, by trivial, by trivial⟩
  · rw [List.take_append_drop]
    exact hlp
  · rw [List.length_take, hlen]
    exact Nat.min_eq_left hth
  · rw [List.length_drop, hlen]

/-- A three-image dataset state used to exercise the split bookkeeping. -/
def splitDS : VRDDataset :=
  { data := [(str "1.jpg", []), (str "2.jpg", []), (str "3.jpg", [])],
    im_metadata := [], img_dir := str "images",
    num_subjects := 100, num_predicates := 70, num_objects := 100,
    im_dim := 224, train_image_idx := [], val_image_idx := [] }

/-- Witness for C3: a concrete 3-image dataset, `val_split = 1/3`, no
shuffling. -/
theorem get_train_val_splits_spec_witness :
    (0 : ℚ) ≤ 1 / 3 ∧ (1 / 3 : ℚ) ≤ 1 ∧
    (((splitDS.get_train_val_splits (1 / 3) false id).2.1 ++
        (splitDS.get_train_val_splits (1 / 3) false id).2.2).Perm
      (splitDS.data.map Prod.fst) ∧
    (splitDS.get_train_val_splits (1 / 3) false id).2.1.length =
      (pyInt (((splitDS.data.map Prod.fst).length : ℚ) * (1 - 1 / 3))).toNat ∧
    (splitDS.get_train_val_splits (1 / 3) false id).2.2.length =
      (splitDS.data.map Prod.fst).length -
        (pyInt (((splitDS.data.map Prod.fst).length : ℚ) * (1 - 1 / 3))).toNat ∧
    (splitDS.get_train_val_splits (1 / 3) false id).1.train_image_idx =
      (splitDS.get_train_val_splits (1 / 3) false id).2.1 ∧
    (splitDS.get_train_val_splits (1 / 3) false id).1.val_image_idx =
      (splitDS.get_train_val_splits (1 / 3) false id).2.2) :=
  ⟨by norm_num, by norm_num,
    get_train_val_splits_spec splitDS (1 / 3) false id
      (fun l => List.Perm.refl l) (by norm_num) (by norm_num)⟩

/-- `image_id.split('.')[0] + '-{}'.format(j)` (src/data.py line 105). -/
def rel_id_of (image_id : PyStr) (j : ℕ) : PyStr :=
  (splitDot image_id).headD [] ++ '-' :: Nat.toDigits 10 j

/-- A region mask rendered as a `d × d` row-major array of ints, the
payload handed to `cv2.imwrite`. -/
def maskToLists (d : ℕ) (m : Fin d → Fin d → ℤ) : List (List ℤ) :=
  List.ofFn (fun r => List.ofFn (fun c => m r c))

/-- The payload of one file written by the script: a mask image, or one
of the two final numpy arrays. -/
inductive FileContent where
  | mask (pixels : List (List ℤ))
  | npyStrs (entries : List PyStr)
  | npyTriples (entries : List (ℕ × ℕ × ℕ))
  deriving DecidableEq

/-- One file written by the script: target path and payload. -/
structure FileWrite where
  path : PyStr
  content : FileContent
  deriving DecidableEq

/-- The per-image body of the `build_and_save_dataset` loop
(src/data.py lines 104-116): for each relationship `j` of the image it
produces the new `rel_idx` entries, the new relationship triples, and the
two mask files written for the subject and object regions. -/
def relationship_writes (ds : VRDDataset) (save_dir : PyStr)
    (image_id : PyStr) (im_data : ImMetadata) (rels : List RelAnn) :
    List PyStr × List (ℕ × ℕ × ℕ) × List FileWrite :=
  (rels.enum.map (fun je => rel_id_of image_id je.1),
    rels.map (fun rel => (rel.subject.category, rel.predicate, rel.object.category)),
    rels.enum.flatMap (fun je =>
      [⟨os_join save_dir (rel_id_of image_id je.1 ++ str "-s.jpg"),
          FileContent.mask (maskToLists ds.im_dim (ds.get_regions_from_bbox
            (ds.rescale_bbox_coordinates je.2.subject im_data)))⟩,
        ⟨os_join save_dir (rel_id_of image_id je.1 ++ str "-o.jpg"),
          FileContent.mask (maskToLists ds.im_dim (ds.get_regions_from_bbox
            (ds.rescale_bbox_coordinates je.2.object im_data)))⟩]))

/-- The image loop of `VRDDataset.build_and_save_dataset`
(src/data.py lines 100-118), carrying the `rel_idx`, `relationships` and
file-write accumulators.  A failed dictionary lookup aborts the loop with
a `KeyError`, returning the files written so far; after a complete loop
the two `.npy` arrays are also written. -/
def build_and_save_go (ds : VRDDataset) (save_dir : PyStr) :
    List PyStr → List PyStr → List (ℕ × ℕ × ℕ) → List FileWrite →
    List FileWrite × Option PyError
  | [], rel_idx, relationships, writes =>
    (writes ++
      [⟨os_join save_dir (str "rel_idx.npy"), FileContent.npyStrs rel_idx⟩,
        ⟨os_join save_dir (str "relationships.npy"),
          FileContent.npyTriples relationships⟩], none)
  | image_id :: rest, rel_idx, relationships, writes =>
    match List.lookup image_id ds.im_metadata with
    | none => (writes, some (.keyError image_id))
    | some im_data =>
      match List.lookup image_id ds.data with
      | none => (writes, some (.keyError image_id))
      | some rels =>
        match relationship_writes ds save_dir image_id im_data rels with
        | (new_idx, new_rels, new_writes) =>
          build_and_save_go ds save_dir rest (rel_idx ++ new_idx)
            (relationships ++ new_rels) (writes ++ new_writes)

/-- `VRDDataset.build_and_save_dataset` (src/data.py lines 88-118).
`image_idx = none` models the Python default `image_idx=None`; the guard
`if not image_idx:` replaces both `None` and the empty list by all image
ids of `self.data`. -/
def VRDDataset.build_and_save_dataset (ds : VRDDataset) (save_dir : PyStr)
    (image_idx : Option (List PyStr)) : List FileWrite × Option PyError :=
  let idx :=
    match image_idx with
    | none => ds.data.map Prod.fst
    | some l => if l.isEmpty then ds.data.map Prod.fst else l
  build_and_save_go ds save_dir idx [] [] []

/-- Claim C7: calling `build_and_save_dataset` with the empty list (a
falsy value, like the default `None`) processes the entire dataset: the
guard replaces the empty selection by all image ids of `self.data`. -/
theorem build_and_save_dataset_falsy (ds : VRDDataset) (save_dir : PyStr) :
    ds.build_and_save_dataset save_dir (some []) =
      ds.build_and_save_dataset save_dir none ∧
    ds.build_and_save_dataset save_dir (some []) =
      build_and_save_go ds save_dir (ds.data.map Prod.fst) [] [] [] :=
  ⟨rfl, rfl⟩

/-- The mask files written for one image whose metadata and annotations
are both present (and nothing when either lookup fails). -/
def image_writes (ds : VRDDataset) (save_dir : PyStr) (image_id : PyStr) :
    List FileWrite :=
  match List.lookup image_id ds.im_metadata, List.lookup image_id ds.data with
  | some im_data, some rels =>
    (relationship_writes ds save_dir image_id im_data rels).2.2
  | _, _ => []

/-- Running the image loop over a prefix whose lookups all succeed
appends that prefix's mask writes and continues with the rest. -/
theorem build_and_save_go_prefix (ds : VRDDataset) (save_dir : PyStr) :
    ∀ (pre l rel_idx : List PyStr) (relationships : List (ℕ × ℕ × ℕ))
      (writes : List FileWrite),
      (∀ iid ∈ pre, (List.lookup iid ds.im_metadata).isSome ∧
        (List.lookup iid ds.data).isSome) →
      ∃ ri rl, build_and_save_go ds save_dir (pre ++ l) rel_idx relationships writes =
        build_and_save_go ds save_dir l ri rl
          (writes ++ pre.flatMap (image_writes ds save_dir))
  | [], l, rel_idx, relationships, writes, _ =>
    ⟨rel_idx, relationships, by simp⟩
  | iid :: pre, l, rel_idx, relationships, writes, h => by
    obtain ⟨hm, hd⟩ := h iid (List.mem_cons_self iid pre)
    obtain ⟨im_data, hmd⟩ := Option.isSome_iff_exists.mp hm
    obtain ⟨rels, hrels⟩ := Option.isSome_iff_exists.mp hd
    have step : build_and_save_go ds save_dir ((iid :: pre) ++ l) rel_idx
        relationships writes =
        build_and_save_go ds save_dir (pre ++ l)
          (rel_idx ++ (relationship_writes ds save_dir iid im_data rels).1)
          (relationships ++ (relationship_writes ds save_dir iid im_data rels).2.1)
          (writes ++ (relationship_writes ds save_dir iid im_data rels).2.2) := by
      rw [List.cons_append, build_and_save_go, hmd, hrels]
    obtain ⟨ri, rl, ih⟩ := build_and_save_go_prefix ds save_dir pre l
      (rel_idx ++ (relationship_writes ds save_dir iid im_data rels).1)
      (relationships ++ (relationship_writes ds save_dir iid im_data rels).2.1)
      (writes ++ (relationship_writes ds save_dir iid im_data rels).2.2)
      (fun x hx => h x (List.mem_cons_of_mem iid hx))
    refine ⟨ri, rl, ?_⟩
    rw [step, ih]
    have hw : image_writes ds save_dir iid =
        (relationship_writes ds save_dir iid im_data rels).2.2 := by
      rw [image_writes, hmd, hrels]
    simp [hw, List.append_assoc]

/-- Claim C6: if `image_idx` contains an image id missing from the loaded
image-metadata mapping (all earlier ids being present), then
`build_and_save_dataset` aborts with an uncaught `KeyError` at that id:
the mask files of the earlier images are left in place, and every file
written is a mask image — in particular neither `rel_idx.npy` nor
`relationships.npy` is written. -/
theorem build_and_save_dataset_missing_metadata (ds : VRDDataset)
    (save_dir : PyStr) (pre : List PyStr) (bad : PyStr) (rest : List PyStr)
    (hpre : ∀ iid ∈ pre, (List.lookup iid ds.im_metadata).isSome ∧
      (List.lookup iid ds.data).isSome)
    (hbad : List.lookup bad ds.im_metadata = none) :
    ds.build_and_save_dataset save_dir (some (pre ++ bad :: rest)) =
      (pre.flatMap (image_writes ds save_dir), some (.keyError bad)) ∧
    ∀ w ∈ (ds.build_and_save_dataset save_dir (some (pre ++ bad :: rest))).1,
      ∃ pixels, w.content = FileContent.mask pixels := by
  have hne : (pre ++ bad :: rest).isEmpty = false := by
    cases pre <;> simp
  have hmain : ds.build_and_save_dataset save_dir (some (pre ++ bad :: rest)) =
      (pre.flatMap (image_writes ds save_dir), some (.keyError bad)) := by
    rw [VRDDataset.build_and_save_dataset]
    simp only [hne]
    obtain ⟨ri, rl, hgo⟩ := build_and_save_go_prefix ds save_dir pre
      (bad :: rest) [] [] [] hpre
    rw [if_neg (by simp [hne]), hgo, build_and_save_go, hbad]
    simp
  refine ⟨hmain, ?_⟩
  rw [hmain]
  intro w hw
  simp only [List.mem_flatMap] at hw
  obtain ⟨iid, _, hwin⟩ := hw
  rw [image_writes] at hwin
  rcases hmm : List.lookup iid ds.im_metadata with _ | im_data <;> rw [hmm] at hwin
  · simp at hwin
  · rcases hdd : List.lookup iid ds.data with _ | rels <;> rw [hdd] at hwin
    · simp at hwin
    · simp only [relationship_writes, List.mem_flatMap] at hwin
      obtain ⟨je, _, hw2⟩ := hwin
      simp only [List.mem_cons, List.not_mem_nil, or_false] at hw2
      rcases hw2 with h | h
      · exact ⟨_, by rw [h]⟩
      · exact ⟨_, by rw [h]⟩

/-- A two-image dataset whose second image has no metadata entry, with a
small `im_dim = 2` for concrete evaluation. -/
def crashDS : VRDDataset :=
  { data := [(str "a.jpg", [⟨⟨1, (0, 1, 0, 1)⟩, 2, ⟨3, (0, 2, 0, 2)⟩⟩]),
      (str "b.jpg", [])],
    im_metadata := [(str "a.jpg", ⟨2, 2⟩)],
    img_dir := str "images", num_subjects := 100, num_predicates := 70,
    num_objects := 100, im_dim := 2, train_image_idx := [],
    val_image_idx := [] }

/-- Witness for C6: building `["a.jpg", "b.jpg"]` when only `a.jpg` has
metadata keeps `a.jpg`'s mask writes and aborts with `KeyError: b.jpg`. -/
theorem build_and_save_dataset_missing_metadata_witness :
    crashDS.build_and_save_dataset (str "out")
        (some ([str "a.jpg"] ++ str "b.jpg" :: [])) =
      ([str "a.jpg"].flatMap (image_writes crashDS (str "out")),
        some (.keyError (str "b.jpg"))) ∧
    ∀ w ∈ (crashDS.build_and_save_dataset (str "out")
        (some ([str "a.jpg"] ++ str "b.jpg" :: []))).1,
      ∃ pixels, w.content = FileContent.mask pixels :=
  build_and_save_dataset_missing_metadata crashDS (str "out")
    [str "a.jpg"] (str "b.jpg") [] (by decide) (by decide)

/-- The accumulator of `build_dataset`: image ids, relationship triples,
subject bboxes, object bboxes. -/
abbrev BuildAcc :=
  List PyStr × List (ℕ × ℕ × ℕ) × List (ℚ × ℚ × ℚ × ℚ) × List (ℚ × ℚ × ℚ × ℚ)

/-- The inner relationship loop of `VRDDataset.build_dataset`
(src/data.py lines 76-85): for each relationship of `image_id`, append
the image id, the `(subject, predicate, object)` category triple, and the
rescaled subject and object bboxes. -/
def build_dataset_inner (ds : VRDDataset) (image_id : PyStr)
    (im_data : ImMetadata) : List RelAnn → BuildAcc → BuildAcc
  | [], acc => acc
  | rel :: rest, (image_ids, relationships, subjects_bbox, objects_bbox) =>
    build_dataset_inner ds image_id im_data rest
      (image_ids ++ [image_id],
        relationships ++ [(rel.subject.category, rel.predicate, rel.object.category)],
        subjects_bbox ++ [ds.rescale_bbox_coordinates rel.subject im_data],
        objects_bbox ++ [ds.rescale_bbox_coordinates rel.object im_data])

/-- The outer image loop of `VRDDataset.build_dataset`
(src/data.py lines 74-85); a failed dictionary lookup raises `KeyError`. -/
def build_dataset_go (ds : VRDDataset) :
    List PyStr → BuildAcc → Except PyError BuildAcc
  | [], acc => .ok acc
  | image_id :: rest, acc =>
    match List.lookup image_id ds.im_metadata with
    | none => .error (.keyError image_id)
    | some im_data =>
      match List.lookup image_id ds.data with
      | none => .error (.keyError image_id)
      | some rels =>
        build_dataset_go ds rest (build_dataset_inner ds image_id im_data rels acc)

/-- `VRDDataset.build_dataset` (src/data.py lines 63-86). -/
def VRDDataset.build_dataset (ds : VRDDataset) (image_idx : List PyStr) :
    Except PyError BuildAcc :=
  build_dataset_go ds image_idx ([], [], [], [])

/-- The annotation list of an image id whose lookup succeeds. -/
def dataOf (ds : VRDDataset) (iid : PyStr) : List RelAnn :=
  (List.lookup iid ds.data).getD []

/-- The metadata of an image id whose lookup succeeds. -/
def metaOf (ds : VRDDataset) (iid : PyStr) : ImMetadata :=
  (List.lookup iid ds.im_metadata).getD ⟨1, 1⟩

/-- Closed form of the inner relationship loop: it appends one entry per
relationship to each of the four accumulators. -/
theorem build_dataset_inner_eq (ds : VRDDataset) (iid : PyStr)
    (im_data : ImMetadata) :
    ∀ (rels : List RelAnn) (acc : BuildAcc),
      build_dataset_inner ds iid im_data rels acc =
        (acc.1 ++ rels.map (fun _ => iid),
          acc.2.1 ++ rels.map (fun rel =>
            (rel.subject.category, rel.predicate, rel.object.category)),
          acc.2.2.1 ++ rels.map (fun rel =>
            ds.rescale_bbox_coordinates rel.subject im_data),
          acc.2.2.2 ++ rels.map (fun rel =>
            ds.rescale_bbox_coordinates rel.object im_data))
  | [], (a, b, c, d) => by simp [build_dataset_inner]
  | rel :: rest, (a, b, c, d) => by
    rw [build_dataset_inner, build_dataset_inner_eq ds iid im_data rest]
    simp

/-- The length of a `flatMap` is the sum of the lengths of its pieces. -/
theorem len_flatMap {α β : Type} (l : List α) (f : α → List β) :
    (l.flatMap f).length = (l.map (fun x => (f x).length)).sum := by
  induction l with
  | nil => simp
  | cons a t ih => simp [ih]

/-- Closed form of the outer image loop when every lookup succeeds. -/
theorem build_dataset_go_eq (ds : VRDDataset) :
    ∀ (idx : List PyStr) (acc : BuildAcc),
      (∀ iid ∈ idx, (List.lookup iid ds.im_metadata).isSome ∧
        (List.lookup iid ds.data).isSome) →
      build_dataset_go ds idx acc = .ok
        (acc.1 ++ idx.flatMap (fun iid => (dataOf ds iid).map (fun _ => iid)),
          acc.2.1 ++ idx.flatMap (fun iid => (dataOf ds iid).map (fun rel =>
            (rel.subject.category, rel.predicate, rel.object.category))),
          acc.2.2.1 ++ idx.flatMap (fun iid => (dataOf ds iid).map (fun rel =>
            ds.rescale_bbox_coordinates rel.subject (metaOf ds iid))),
          acc.2.2.2 ++ idx.flatMap (fun iid => (dataOf ds iid).map (fun rel =>
            ds.rescale_bbox_coordinates rel.object (metaOf ds iid))))
  | [], acc, _ => by simp [build_dataset_go]
  | iid :: rest, acc, h => by
    obtain ⟨hm, hd⟩ := h iid (List.mem_cons_self iid rest)
    obtain ⟨im_data, hmd⟩ := Option.isSome_iff_exists.mp hm
    obtain ⟨rels, hrels⟩ := Option.isSome_iff_exists.mp hd
    have hdataOf : dataOf ds iid = rels := by rw [dataOf, hrels]; rfl
    have hmetaOf : metaOf ds iid = im_data := by rw [metaOf, hmd]; rfl
    rw [build_dataset_go, hmd, hrels]
    show build_dataset_go ds rest (build_dataset_inner ds iid im_data rels acc) = _
    rw [build_dataset_go_eq ds rest _ (fun x hx => h x (List.mem_cons_of_mem iid hx)),
      build_dataset_inner_eq]
    simp [hdataOf, hmetaOf]

/-- Claim C9: when every id of `image_idx` has both annotations and
metadata, `build_dataset` succeeds and its four arrays all have length
`N`, the total number of relationships across the given images, with the
entries at each index describing the same relationship: each array is the
concatenation, image by image in order, of one entry per relationship
(the image id being repeated once per relationship of that image). -/
theorem build_dataset_aligned (ds : VRDDataset) (image_idx : List PyStr)
    (h : ∀ iid ∈ image_idx, (List.lookup iid ds.im_metadata).isSome ∧
      (List.lookup iid ds.data).isSome) :
    ds.build_dataset image_idx = .ok
      (image_idx.flatMap (fun iid => (dataOf ds iid).map (fun _ => iid)),
        image_idx.flatMap (fun iid => (dataOf ds iid).map (fun rel =>
          (rel.subject.category, rel.predicate, rel.object.category))),
        image_idx.flatMap (fun iid => (dataOf ds iid).map (fun rel =>
          ds.rescale_bbox_coordinates rel.subject (metaOf ds iid))),
        image_idx.flatMap (fun iid => (dataOf ds iid).map (fun rel =>
          ds.rescale_bbox_coordinates rel.object (metaOf ds iid)))) ∧
    (image_idx.flatMap (fun iid => (dataOf ds iid).map (fun _ => iid))).length =
      (image_idx.map (fun iid => (dataOf ds iid).length)).sum ∧
    (image_idx.flatMap (fun iid => (dataOf ds iid).map (fun rel =>
        (rel.subject.category, rel.predicate, rel.object.category)))).length =
      (image_idx.map (fun iid => (dataOf ds iid).length)).sum ∧
    (image_idx.flatMap (fun iid => (dataOf ds iid).map (fun rel =>
        ds.rescale_bbox_coordinates rel.subject (metaOf ds iid)))).length =
      (image_idx.map (fun iid => (dataOf ds iid).length)).sum ∧
    (image_idx.flatMap (fun iid => (dataOf ds iid).map (fun rel =>
        ds.rescale_bbox_coordinates rel.object (metaOf ds iid)))).length =
      (image_idx.map (fun iid => (dataOf ds iid).length)).sum := by
  refine ⟨?_, ?_, ?_, ?_, ?_⟩
  · rw [VRDDataset.build_dataset, build_dataset_go_eq ds image_idx _ h]
    simp
  all_goals rw [len_flatMap]; simp

/-- Witness for C9: the single-image selection `["a.jpg"]` of `crashDS`
(whose metadata is present) yields four aligned length-1 arrays. -/
theorem build_dataset_aligned_witness :
    crashDS.build_dataset [str "a.jpg"] = .ok
      (([str "a.jpg"].flatMap (fun iid => (dataOf crashDS iid).map (fun _ => iid)),
        [str "a.jpg"].flatMap (fun iid => (dataOf crashDS iid).map (fun rel =>
          (rel.subject.category, rel.predicate, rel.object.category))),
        [str "a.jpg"].flatMap (fun iid => (dataOf crashDS iid).map (fun rel =>
          crashDS.rescale_bbox_coordinates rel.subject (metaOf crashDS iid))),
        [str "a.jpg"].flatMap (fun iid => (dataOf crashDS iid).map (fun rel =>
          crashDS.rescale_bbox_coordinates rel.object (metaOf crashDS iid))))) ∧
    ([str "a.jpg"].flatMap (fun iid => (dataOf crashDS iid).map (fun _ => iid))).length =
      ([str "a.jpg"].map (fun iid => (dataOf crashDS iid).length)).sum ∧
    ([str "a.jpg"].flatMap (fun iid => (dataOf crashDS iid).map (fun rel =>
        (rel.subject.category, rel.predicate, rel.object.category)))).length =
      ([str "a.jpg"].map (fun iid => (dataOf crashDS iid).length)).sum ∧
    ([str "a.jpg"].flatMap (fun iid => (dataOf crashDS iid).map (fun rel =>
        crashDS.rescale_bbox_coordinates rel.subject (metaOf crashDS iid)))).length =
      ([str "a.jpg"].map (fun iid => (dataOf crashDS iid).length)).sum ∧
    ([str "a.jpg"].flatMap (fun iid => (dataOf crashDS iid).map (fun rel =>
        crashDS.rescale_bbox_coordinates rel.object (metaOf crashDS iid)))).length =
      ([str "a.jpg"].map (fun iid => (dataOf crashDS iid).length)).sum :=
  build_dataset_aligned crashDS [str "a.jpg"] (by decide)

/-- The command-line arguments of src/data.py. -/
structure DataArgs where
  test : Bool
  val_split : ℚ
  save_dir : Option PyStr
  img_dir : Option PyStr
  annotations : PyStr
  image_metadata : PyStr

/-- Observable trace of running the `__main__` block of src/data.py:
lines printed, `sys.exit` code if any, whether the `VRDDataset` was
constructed, directories created with `os.mkdir`, files written, and any
uncaught exception. -/
structure DataMainTrace where
  printed : List PyStr
  exit_code : Option ℤ
  dataset_constructed : Bool
  created_dirs : List PyStr
  writes : List FileWrite
  error : Option PyError
  deriving DecidableEq

/-- The `__main__` block of src/data.py (lines 148-196), after argument
parsing.  The two loaded JSON files are passed as `annotations` and
`metadata`; `shuffler` models the unseeded `np.random.shuffle` used by
`get_train_val_splits`.  The per-iteration progress prints inside
`build_and_save_dataset` are not tracked. -/
def data_main (args : DataArgs) (annotations : List (PyStr × List RelAnn))
    (metadata : List (PyStr × ImMetadata))
    (shuffler : List PyStr → List PyStr) : DataMainTrace :=
  match args.save_dir with
  | none =>
    { printed := [str "--save-dir not specified. Exiting!"], exit_code := some 0,
      dataset_constructed := false, created_dirs := [], writes := [],
      error := none }
  | some save_dir =>
    match args.img_dir with
    | none =>
      { printed := [str "--img-dir not specified. Exiting!"], exit_code := some 0,
        dataset_constructed := false, created_dirs := [], writes := [],
        error := none }
    | some img_dir =>
      let vrd_dataset : VRDDataset :=
        { data := annotations, im_metadata := metadata, img_dir := img_dir,
          num_subjects := 100, num_predicates := 70, num_objects := 100,
          im_dim := 224, train_image_idx := [], val_image_idx := [] }
      if args.test then
        let test_dir := os_join save_dir (str "test")
        let r := vrd_dataset.build_and_save_dataset test_dir none
        { printed := [], exit_code := none, dataset_constructed := true,
          created_dirs := [test_dir], writes := r.1, error := r.2 }
      else
        let res := vrd_dataset.get_train_val_splits args.val_split true shuffler
        let train_dir := os_join save_dir (str "train")
        let r1 := res.1.build_and_save_dataset train_dir (some res.2.1)
        match r1.2 with
        | some e =>
          { printed := [str "| Building training data..."], exit_code := none,
            dataset_constructed := true, created_dirs := [train_dir],
            writes := r1.1, error := some e }
        | none =>
          let val_dir := os_join save_dir (str "val")
          let r2 := res.1.build_and_save_dataset val_dir (some res.2.2)
          { printed := [str "| Building training data...",
              str "| Building validation data..."],
            exit_code := none, dataset_constructed := true,
            created_dirs := [train_dir, val_dir], writes := r1.1 ++ r2.1,
            error := r2.2 }

/-- Claim C4: when src/data.py is invoked without `--save-dir` (or
without `--img-dir`), it prints the corresponding message and exits with
code 0 before constructing the dataset, creating any directory, or
writing any output. -/
theorem data_main_missing_dirs (args : DataArgs)
    (annotations : List (PyStr × List RelAnn))
    (metadata : List (PyStr × ImMetadata))
    (shuffler : List PyStr → List PyStr)
    (hs : args.save_dir = none ∨ args.img_dir = none) :
    (data_main args annotations metadata shuffler).exit_code = some 0 ∧
    (data_main args annotations metadata shuffler).dataset_constructed = false ∧
    (data_main args annotations metadata shuffler).created_dirs = [] ∧
    (data_main args annotations metadata shuffler).writes = [] ∧
    ((data_main args annotations metadata shuffler).printed =
        [str "--save-dir not specified. Exiting!"] ∨
      (data_main args annotations metadata shuffler).printed =
        [str "--img-dir not specified. Exiting!"]) := by
  rcases hsd : args.save_dir with _ | sd
  · simp [data_main, hsd]
  · rcases hid : args.img_dir with _ | imd
    · simp [data_main, hsd, hid]
    · rcases hs with hs | hs
      · exact absurd (hsd ▸ hs) (by simp)
      · exact absurd (hid ▸ hs) (by simp)

/-- Witness for C4: concrete arguments with `--save-dir` missing. -/
theorem data_main_missing_dirs_witness :
    (data_main ⟨false, 1 / 10, none, some (str "imgs"), str "ann.json",
        str "meta.json"⟩ [] [] id).exit_code = some 0 ∧
    (data_main ⟨false, 1 / 10, none, some (str "imgs"), str "ann.json",
        str "meta.json"⟩ [] [] id).dataset_constructed = false ∧
    (data_main ⟨false, 1 / 10, none, some (str "imgs"), str "ann.json",
        str "meta.json"⟩ [] [] id).created_dirs = [] ∧
    (data_main ⟨false, 1 / 10, none, some (str "imgs"), str "ann.json",
        str "meta.json"⟩ [] [] id).writes = [] ∧
    ((data_main ⟨false, 1 / 10, none, some (str "imgs"), str "ann.json",
        str "meta.json"⟩ [] [] id).printed =
        [str "--save-dir not specified. Exiting!"] ∨
      (data_main ⟨false, 1 / 10, none, some (str "imgs"), str "ann.json",
        str "meta.json"⟩ [] [] id).printed =
        [str "--img-dir not specified. Exiting!"]) :=
  data_main_missing_dirs _ [] [] id (Or.inl rfl)

/-- The command-line arguments of src/train.py used before training
starts. -/
structure TrainArgs where
  use_models_dir : Bool
  models_dir : Option PyStr
  save_dir : Option PyStr
  overwrite : Bool

/-- Exceptions the src/train.py `__main__` block can raise before
training. -/
inductive TrainError where
  | valueError (msg : PyStr)
  | typeError
  deriving DecidableEq

/-- Observable trace of the src/train.py driver up to the point where
training would start: exception raised, directory created, log file set
up, `args.json` written, data iterators created, model built, and the
files written inside the save directory. -/
structure TrainTrace where
  raised : Option TrainError
  dir_created : Bool
  log_created : Bool
  args_json_written : Bool
  iterators_created : Bool
  model_built : Bool
  files_written : List PyStr
  deriving DecidableEq

/-- The `__main__` block of src/train.py (lines 21-48): resolve
`save_dir` from `--use-models-dir`, refuse to run when the directory
already exists and `--overwrite` is not set, otherwise create the
directory and proceed (logging, `args.json`, iterators, model, training).
`isdir` models `os.path.isdir` on the current filesystem and
`get_dir_name` the helper from `utils.train_utils`; `os.path.isdir(None)`
raises `TypeError`.  Everything from line 41 on is summarized by the
trace flags. -/
def train_main (args : TrainArgs) (isdir : PyStr → Bool)
    (get_dir_name : PyStr → PyStr) : TrainTrace :=
  let args_save_dir : Option PyStr :=
    if args.use_models_dir && args.models_dir.isSome && args.save_dir.isNone
    then args.models_dir.map get_dir_name
    else args.save_dir
  match args_save_dir with
  | none =>
    { raised := some .typeError, dir_created := false, log_created := false,
      args_json_written := false, iterators_created := false,
      model_built := false, files_written := [] }
  | some save_dir =>
    if !args.overwrite && isdir save_dir then
      { raised := some (.valueError (str "The directory " ++ save_dir ++
          str " already exists. Exiting training!")),
        dir_created := false, log_created := false, args_json_written := false,
        iterators_created := false, model_built := false, files_written := [] }
    else
      { raised := none, dir_created := !isdir save_dir, log_created := true,
        args_json_written := true, iterators_created := true,
        model_built := true,
        files_written := [os_join save_dir (str "train.log"),
          os_join save_dir (str "args.json")] }

/-- Claim C5: when `--overwrite` is not set and `args.save_dir` names an
existing directory, the training driver raises an uncaught `ValueError`
and does not launch training: no directory, log file, `args.json`,
iterators, or model are created, and nothing is written into the existing
directory. -/
theorem train_main_existing_save_dir (args : TrainArgs)
    (isdir : PyStr → Bool) (get_dir_name : PyStr → PyStr) (d : PyStr)
    (hov : args.overwrite = false) (hsd : args.save_dir = some d)
    (hd : isdir d = true) :
    train_main args isdir get_dir_name =
      { raised := some (.valueError (str "The directory " ++ d ++
          str " already exists. Exiting training!")),
        dir_created := false, log_created := false, args_json_written := false,
        iterators_created := false, model_built := false,
        files_written := [] } := by
  rw [train_main]
  have hres : (if args.use_models_dir && args.models_dir.isSome &&
      args.save_dir.isNone then args.models_dir.map get_dir_name
      else args.save_dir) = some d := by
    rw [hsd]
    simp
  rw [hres]
  simp [hov, hd]

/-- Witness for C5: concrete arguments whose save directory exists. -/
theorem train_main_existing_save_dir_witness :
    train_main ⟨false, none, some (str "runs"), false⟩ (fun _ => true) id =
      { raised := some (.valueError (str "The directory " ++ str "runs" ++
          str " already exists. Exiting training!")),
        dir_created := false, log_created := false, args_json_written := false,
        iterators_created := false, model_built := false,
        files_written := [] } :=
  train_main_existing_save_dir ⟨false, none, some (str "runs"), false⟩
    (fun _ => true) id (str "runs") rfl rfl rfl

end RefRel
